import Mathlib

/-!
# Verification of the mattermost-redux post pipeline (src/actions/plugins.ts)

Shallow embedding of the post synchronization and dependency-prefetch layer:
`createPost` (pending-id dedup, rollback classification), `deletePost` /
`removePost` (combined-post fan-out), `getPostsAround` (three-way merge),
`getProfilesAndStatusesForPosts` and its demand-set scans
(`getNeededAtMentionedUsernames`, `getNeededCustomEmojis`), and the
read/unread policy of `lastPostActions`.

Conventions: machine timestamps are `Nat`; JavaScript `undefined`/missing
fields are `Option`; a function that would throw on some input returns
`Option` with `none` for the throwing path; JS `Set` demand sets are
`List String` compared by membership.
-/

namespace MMRedux

/-- A server error, as delivered by the remote client to a rollback/catch
handler; `server_error_id` is the classification string compared in
`createPost`'s rollback. -/
structure SrvError where
  server_error_id : String
  deriving Repr, DecidableEq

/-- One field of a rich message attachment (`props.attachments[i].fields[j]`);
`value` is its text, `""` standing for a JS falsy value. -/
structure AttachmentField where
  value : String
  deriving Repr, DecidableEq

/-- A rich message attachment from `post.props.attachments`; empty strings
stand for absent/falsy `pretext` and `text`. -/
structure Attachment where
  fields : List AttachmentField
  pretext : String
  text : String
  deriving Repr, DecidableEq

/-- A post record. `pending_post_id = none` models a missing or empty
(falsy) pending id; `system_post_ids = none` a missing member list;
`metadata` is the truthiness of the server-resolved metadata object;
`props_attachments` flattens `props.attachments` (with `[]` for a missing
`props` or missing `attachments`). -/
structure Post where
  id : String
  pending_post_id : Option String
  channel_id : String
  user_id : String
  root_id : String
  message : String
  type : String
  system_post_ids : Option (List String)
  file_ids : Option (List String)
  create_at : Nat
  update_at : Nat
  failed : Bool
  metadata : Bool
  props_attachments : List Attachment
  deriving Repr, DecidableEq

/-- The ordered post batch returned by the paged fetch endpoints
(`CombinedPostList` in the source): an id-keyed map of posts (modelled as
an association list), a newest-first id order, and the two boundary
markers. -/
structure CombinedPostList where
  posts : List (String × Post)
  order : List String
  next_post_id : String
  prev_post_id : String
  deriving Repr, DecidableEq

/-- Modelled from the spec: the constant `Posts.POST_TYPES.COMBINED_USER_ACTIVITY`
lives in `constants`, outside the provided sources; the spec calls these
"combined system-activity" posts. Only equality against it matters here. -/
def COMBINED_USER_ACTIVITY : String := "system_combined_user_activity"

/-- Modelled from the spec: `General.SPECIAL_MENTIONS` (reserved mention
tokens such as "@all", "@channel") lives in `constants`, outside the
provided sources. -/
def SPECIAL_MENTIONS : List String := ["all", "channel", "here"]

/-- The client-side state read by these actions, flattened to the fields
the embedded operations consult. `sendingPostIds` models the spec's
pending-send record behind `Selectors.isPostIdSending`; `storePosts`
models the normalized post store behind `Selectors.getPost`;
`usersByUsername` the cached profile names behind `getUsersByUsername`;
`enableCustomEmoji` the raw config string compared against `"true"`. -/
structure GlobalState where
  currentUserId : String
  currentChannelId : String
  sendingPostIds : List String
  storePosts : List (String × Post)
  profiles : List String
  statuses : List String
  usersByUsername : List String
  enableCustomEmoji : String
  systemEmojis : List String
  customEmojisByName : List String
  nonExistentEmoji : List String
  deriving Repr

/-- Association-list lookup standing for reading a key of a normalized
JS object map. -/
def mapGet (m : List (String × Post)) (k : String) : Option Post :=
  (m.find? (fun e => e.1 = k)).map (·.2)

/-- Modelled from the spec: `Selectors.getPost(state, id)` (a selector
outside the provided sources) reads the normalized post store at `id`. -/
def selGetPost (state : GlobalState) (postId : String) : Option Post :=
  mapGet state.storePosts postId

/-- Modelled from the spec: `Selectors.isPostIdSending(state, pendingPostId)`
(outside the provided sources) tests the pending-send record, which marks
the pending ids of sends currently outstanding. -/
def isPostIdSending (state : GlobalState) (pendingPostId : String) : Bool :=
  state.sendingPostIds.contains pendingPostId

/-- The actions this layer dispatches toward the reducers, restricted to
the constructors the verified operations emit. `logError` stands for the
shared error-logging side effect; the `markChannel*` constructors carry
the arguments the channel actions are invoked with. -/
inductive PAction where
  | receivedPost (post : Post)
  | receivedNewPost (post : Post)
  | receivedPosts (posts : CombinedPostList)
  | receivedPostsInChannel (posts : CombinedPostList) (channelId : String)
      (recent : Bool) (oldest : Bool)
  | postDeleted (post : Post)
  | postRemoved (post : Post)
  | receivedFilesForPost (postId : String) (fileIds : List String)
  | createPostFailure (e : SrvError)
  | getPostsFailure (e : SrvError)
  | getPostsSuccess
  | reactionDeleted (userId postId emojiName : String)
  | receivedReaction
  | logError (e : SrvError)
  | stopTyping (id : String) (userId : String) (now : Nat)
  | markChannelAsRead (channelId : String) (onServer : Bool)
  | markChannelAsViewed (channelId : String)
  | markChannelAsUnread (teamId channelId : String) (mentions : List String)
  deriving Repr, DecidableEq

/-- Receipt actions are the post-batch/post-record dispatches consumed by
the normalized post store, as opposed to request-lifecycle markers,
error logging, typing signals and channel read-state updates. -/
def PAction.isReceipt : PAction → Bool
  | .receivedPost _ => true
  | .receivedNewPost _ => true
  | .receivedPosts _ => true
  | .receivedPostsInChannel _ _ _ _ => true
  | .postDeleted _ => true
  | .postRemoved _ => true
  | _ => false

/-- The `{data}` / `{error}` result object every action creator of this
layer is supposed to resolve with; the payload variants cover the shapes
the verified operations return. -/
inductive PResult where
  | dataTrue
  | dataPost (post : Post)
  | dataPosts (posts : CombinedPostList)
  | error (e : SrvError)
  deriving Repr, DecidableEq

/-- `r.isUniform` holds when `r` is a `{data}` or `{error}` object (it is
true of every `PResult`; the interesting distinction is `Option PResult`'s
`none`, standing for a thunk that resolves with `undefined`). -/
def PResult.isUniform : PResult → Bool
  | _ => true

/- ## Mention scanning (`getNeededAtMentionedUsernames`) -/

/-- JS `string.includes(c)` for a single character, evaluated over the
string's character list (kernel-reducible, unlike `String.contains`'
byte-position recursion). -/
def strContainsChar (s : String) (c : Char) : Bool :=
  s.data.contains c

/-- A JS word character, the `\w` class deciding the `\B` assertion of the
mention pattern: ASCII alphanumeric or underscore. -/
def isWordChar (c : Char) : Bool :=
  c.isAlphanum || c = '_'

/-- A character of the mention body class `[a-z0-9_.-]` under the `i` flag:
ASCII alphanumeric, underscore, dot or dash. -/
def isMentionChar (c : Char) : Bool :=
  c.isAlphanum || c = '_' || c = '.' || c = '-'

/-- Trailing-punctuation characters trimmed from a mention candidate
(the `[.-]*` tail of the pattern). -/
def isMentionPunct (c : Char) : Bool :=
  c = '.' || c = '-'

/-- One step of the `pattern.exec` loop of the mention regex
`\B@(([a-z0-9_.-]*[a-z0-9_])[.-]*)` with the `g`/`i` flags: scan the
character list left to right tracking whether the previous character is a
word character (for `\B`); at an `@` not preceded by a word character take
the maximal run of mention characters, emit the pair
(run = `match[1]`, run minus trailing punctuation = `match[2]`) when the
trimmed form is nonempty, and resume after the run. `fuel` bounds the
number of steps; it is at least the list length at every call, so it
never runs out. -/
def scanMentionsAux : Nat → Bool → List Char → List (String × String)
  | 0, _, _ => []
  | _ + 1, _, [] => []
  | fuel + 1, prevWord, c :: rest =>
    if c = '@' && !prevWord then
      let run := rest.takeWhile isMentionChar
      let trimmed := (run.reverse.dropWhile isMentionPunct).reverse
      if trimmed.isEmpty then
        scanMentionsAux fuel false rest
      else
        (run.asString, trimmed.asString) ::
          scanMentionsAux fuel
            (match run.getLast? with
              | some lastChar => isWordChar lastChar
              | none => false)
            (rest.drop run.length)
    else
      scanMentionsAux fuel (isWordChar c) rest

/-- All matches `(match[1], match[2])` of the mention pattern over a
message, in order. -/
def scanMentions (message : String) : List (String × String) :=
  scanMentionsAux (message.length + 1) false message.toList

/-- The mention candidates one post's message contributes to the demand
set: for each match, skip it when the trimmed form is a reserved mention
or when either form resolves to a cached profile, otherwise contribute
both forms (set semantics: compare by membership). -/
def mentionCandidates (usersByUsername : List String) (message : String) :
    List String :=
  (scanMentions message).foldr
    (fun m acc =>
      if SPECIAL_MENTIONS.contains m.2 then acc
      else if usersByUsername.contains m.1 || usersByUsername.contains m.2 then acc
      else m.1 :: m.2 :: acc)
    []

/-- `getNeededAtMentionedUsernames(state, posts)`: scan each post whose
message contains an `@` and collect the mention candidates not yet
resolved by the cached profiles. -/
def getNeededAtMentionedUsernames (state : GlobalState) (posts : List Post) :
    List String :=
  posts.foldr
    (fun post acc =>
      if strContainsChar post.message '@' then
        mentionCandidates state.usersByUsername post.message ++ acc
      else acc)
    []

/- ## Emoji scanning (`getNeededCustomEmojis`) -/

/-- A character admissible in a custom emoji name. -/
def isEmojiNameChar (c : Char) : Bool :=
  c.isAlphanum || c = '_' || c = '-' || c = '+'

/-- Modelled from the spec: the scanning core of
`parseNeededCustomEmojisFromText` (`utils/emoji_utils`, outside the
provided sources) recognizes custom emoji "referenced via \x22:name:\x22
syntax": collect every name enclosed in a pair of colons, resuming after
the closing colon. `fuel` bounds the steps and never runs out when it is
at least the list length. -/
def scanEmojiNamesAux : Nat → List Char → List String
  | 0, _ => []
  | _ + 1, [] => []
  | fuel + 1, c :: rest =>
    if c = ':' then
      let run := rest.takeWhile isEmojiNameChar
      match rest.drop run.length with
      | ':' :: rest2 =>
        if run.isEmpty then scanEmojiNamesAux fuel rest
        else run.asString :: scanEmojiNamesAux fuel rest2
      | _ => scanEmojiNamesAux fuel rest
    else scanEmojiNamesAux fuel rest

/-- All `:name:` tokens of a text, in order. -/
def scanEmojiNames (text : String) : List String :=
  scanEmojiNamesAux (text.length + 1) text.toList

/-- Modelled from the spec: `parseNeededCustomEmojisFromText(text,
systemEmojis, customEmojisByName, nonExistentEmoji)` (`utils/emoji_utils`,
outside the provided sources) returns the names referenced via `:name:`
syntax "that are neither built-in, already-cached, nor previously
confirmed non-existent". -/
def parseNeededCustomEmojisFromText (text : String)
    (systemEmojis customEmojisByName nonExistentEmoji : List String) :
    List String :=
  (scanEmojiNames text).filter
    (fun name =>
      !systemEmojis.contains name &&
      !customEmojisByName.contains name &&
      !nonExistentEmoji.contains name)

/-- `buildPostAttachmentText(attachments)`: concatenate, each prefixed by
a space, every field value, then the pretext, then the text of each
attachment (falsy values contribute the empty string). -/
def buildPostAttachmentText (attachments : List Attachment) : String :=
  attachments.foldl
    (fun acc a =>
      let acc1 := a.fields.foldl (fun s f => s ++ " " ++ f.value) acc
      let acc2 := if a.pretext ≠ "" then acc1 ++ " " ++ a.pretext else acc1
      if a.text ≠ "" then acc2 ++ " " ++ a.text else acc2)
    ""

/-- The emoji names one post contributes to the demand set: its message
when it contains a colon, plus its attachment text when it has
attachments and their concatenated text is nonempty. -/
def postEmojiDemand (state : GlobalState) (post : Post) : List String :=
  (if strContainsChar post.message ':' then
    parseNeededCustomEmojisFromText post.message state.systemEmojis
      state.customEmojisByName state.nonExistentEmoji
  else []) ++
  (if post.props_attachments ≠ [] then
    let attachmentText := buildPostAttachmentText post.props_attachments
    if attachmentText ≠ "" then
      parseNeededCustomEmojisFromText attachmentText state.systemEmojis
        state.customEmojisByName state.nonExistentEmoji
    else []
  else [])

/-- `getNeededCustomEmojis(state, posts)`: empty when the config string
`EnableCustomEmoji` differs from `"true"`; otherwise the code reads
`posts[0].metadata` — on an empty batch that access throws (`none`); when
the first post carries metadata the whole batch is skipped; otherwise
every post of the batch is scanned. -/
def getNeededCustomEmojis (state : GlobalState) (posts : List Post) :
    Option (List String) :=
  if state.enableCustomEmoji ≠ "true" then some []
  else
    match posts with
    | [] => none
    | post0 :: _ =>
      if post0.metadata then some []
      else some (posts.foldr (fun post acc => postEmojiDemand state post ++ acc) [])

/- ## Dependency prefetcher (`getProfilesAndStatusesForPosts`) -/

/-- One fetch the prefetcher may trigger, carrying the keys requested. -/
inductive Fetch where
  | profilesByIds (ids : List String)
  | statusesByIds (ids : List String)
  | profilesByUsernames (usernames : List String)
  | customEmojisByName (names : List String)
  deriving Repr, DecidableEq

/-- Append a key unless already present, mirroring JS `Set.add` while
keeping insertion order. -/
def addUnique (l : List String) (s : String) : List String :=
  if l.contains s then l else l ++ [s]

/-- The author ids whose presence status is uncached, in post order. -/
def statusesToLoad (state : GlobalState) (posts : List Post) : List String :=
  posts.foldl
    (fun acc post =>
      if state.statuses.contains post.user_id then acc
      else addUnique acc post.user_id)
    []

/-- The author ids other than the current user whose profile is uncached,
in post order. -/
def userIdsToLoad (state : GlobalState) (posts : List Post) : List String :=
  posts.foldl
    (fun acc post =>
      if post.user_id = state.currentUserId then acc
      else if state.profiles.contains post.user_id then acc
      else addUnique acc post.user_id)
    []

/-- `getProfilesAndStatusesForPosts(postsArrayOrMap, dispatch, getState)`:
`none` input models a null/undefined batch (the code resolves
immediately), as does an empty batch; otherwise one fetch is triggered
per non-empty demand set. The outer `Option` is `none` when the code
would throw (the emoji scan's `posts[0]` access); the result list holds
the triggered fetches. -/
def getProfilesAndStatusesForPosts (state : GlobalState)
    (postsArrayOrMap : Option (List Post)) : Option (List Fetch) :=
  match postsArrayOrMap with
  | none => some []
  | some posts =>
    if posts.length = 0 then some []
    else
      let userIds := userIdsToLoad state posts
      let statusIds := statusesToLoad state posts
      let usernames := getNeededAtMentionedUsernames state posts
      match getNeededCustomEmojis state posts with
      | none => none
      | some emojis =>
        some
          ((if userIds ≠ [] then [Fetch.profilesByIds userIds] else []) ++
           (if statusIds ≠ [] then [Fetch.statusesByIds statusIds] else []) ++
           (if usernames ≠ [] then [Fetch.profilesByUsernames usernames] else []) ++
           (if emojis ≠ [] then [Fetch.customEmojisByName emojis] else []))

/- ## Store reducer semantics at the boundary -/

/-- Delete a key of a normalized map. -/
def mapErase (m : List (String × Post)) (k : String) : List (String × Post) :=
  m.filter (fun e => e.1 ≠ k)

/-- Write a key of a normalized map (upsert). The association list stands
for a JS object keyed by post id; entry order is an artifact of the
encoding and is never observed — only `mapGet` is. -/
def mapSet (m : List (String × Post)) (k : String) (v : Post) :
    List (String × Post) :=
  mapErase m k ++ [(k, v)]

/-- JS object-spread merge `{...a, ...b}` of two id-keyed maps: entries of
`b` override entries of `a`. -/
def mergeMaps (a b : List (String × Post)) : List (String × Post) :=
  b.foldl (fun m e => mapSet m e.1 e.2) a

/-- Modelled from the spec: the reducers owning the normalized post store
are external; per the boundary contract, "post received" / "new post
received" upsert the record keyed by its id and "post removed" deletes
the record. The remaining actions do not remove or upsert a whole record
in the post map (POST_DELETED keeps the record as a placeholder). -/
def applyPAction (store : List (String × Post)) : PAction → List (String × Post)
  | .receivedPost p => mapSet store p.id p
  | .receivedNewPost p => mapSet store p.id p
  | .postRemoved p => mapErase store p.id
  | _ => store

/-- Fold a dispatched action list into the post store. -/
def applyPActions (store : List (String × Post)) (acts : List PAction) :
    List (String × Post) :=
  acts.foldl applyPAction store

/- ## `createPost` -/

/-- The generated pending id `` `${currentUserId}:${timestamp}` ``. -/
def mkPendingPostId (currentUserId : String) (timestamp : Nat) : String :=
  currentUserId ++ ":" ++ toString timestamp

/-- The pending id `createPost` settles on: the draft's own
`pending_post_id` when present (the retry case), otherwise the generated
`` `${currentUserId}:${timestamp}` ``. -/
def pendingIdOf (state : GlobalState) (now : Nat) (post : Post) : String :=
  match post.pending_post_id with
  | some pid => pid
  | none => mkPendingPostId state.currentUserId now

/-- What one `createPost` invocation observably does: the pending id it
settles on, the actions it dispatches synchronously, whether it queues
the offline network effect (`Client4.createPost`), and the result object
its thunk resolves with. -/
structure CreatePostOutcome where
  pendingPostId : String
  dispatched : List PAction
  networkCallQueued : Bool
  result : Option PResult
  deriving Repr, DecidableEq

/-- `createPost(post, files)` up to the point the offline effect is queued.
`now` is `Date.now()` at entry; `files` carries the attached file ids (the
JS descriptors reduced to their ids). When the pending-send record already
marks the pending id as sending, the call returns `{data: true}` with no
dispatch and no network effect; otherwise it stamps the timestamps,
re-derives the files of a retried pending post, dispatches the file
association (when files exist) and the optimistic new-post receipt
carrying the offline create effect, and resolves `{data: true}`.
In the optimistic dispatch the source builds `{id: pendingPostId,
...newPost}`, so a nonempty draft id would override the pending id;
`post.id = ""` models a draft with the id omitted. -/
def createPost (state : GlobalState) (now : Nat) (post : Post)
    (files0 : List String) : CreatePostOutcome :=
  let timestamp := now
  let pendingPostId :=
    match post.pending_post_id with
    | some pid => pid
    | none => mkPendingPostId state.currentUserId timestamp
  if isPostIdSending state pendingPostId then
    { pendingPostId := pendingPostId
      dispatched := []
      networkCallQueued := false
      result := some .dataTrue }
  else
    let newPost0 : Post :=
      { post with
        pending_post_id := some pendingPostId
        create_at := timestamp
        update_at := timestamp }
    let files :=
      if newPost0.file_ids.isSome && files0.isEmpty then newPost0.file_ids.getD []
      else files0
    let newPost :=
      if !files.isEmpty then { newPost0 with file_ids := some files } else newPost0
    let fileActs :=
      if !files.isEmpty then [PAction.receivedFilesForPost pendingPostId files]
      else []
    let optimistic :=
      { newPost with id := if newPost.id = "" then pendingPostId else newPost.id }
    { pendingPostId := pendingPostId
      dispatched := fileActs ++ [PAction.receivedNewPost optimistic]
      networkCallQueued := true
      result := some .dataTrue }

/- ## `removePost` and `deletePost` (combined-post fan-out) -/

/-- `removePost(post)`'s dispatches: a combined system-activity post with
a member list fans out recursively over the members found in the store
(missing members contribute nothing); any other post is removed directly.
`fuel` bounds the recursion depth of the embedding; the JS recursion has
no such bound. -/
def removePostActions : Nat → GlobalState → Post → List PAction
  | 0, _, _ => []
  | fuel + 1, state, post =>
    if post.type = COMBINED_USER_ACTIVITY && post.system_post_ids.isSome then
      (post.system_post_ids.getD []).foldl
        (fun acc systemPostId =>
          match selGetPost state systemPostId with
          | some systemPost => acc ++ removePostActions fuel state systemPost
          | none => acc)
        []
    else [PAction.postRemoved post]

/-- `removePost(post)` as a whole: its dispatches and its return value —
the source thunk has no `return` statement, so it resolves with
`undefined`, modelled as `none`. -/
def removePost (fuel : Nat) (state : GlobalState) (post : Post) :
    List PAction × Option PResult :=
  (removePostActions fuel state post, none)

/-- `deletePost(post)`'s dispatches and issued remote delete calls (the
post ids passed to `Client4.deletePost`): a combined system-activity post
with a member list fans out recursively over the members found in the
store; any other post is optimistically marked deleted and one remote
delete for its own id is issued. `fuel` bounds the recursion depth of the
embedding. -/
def deletePostActions : Nat → GlobalState → Post → List PAction × List String
  | 0, _, _ => ([], [])
  | fuel + 1, state, post =>
    if post.type = COMBINED_USER_ACTIVITY && post.system_post_ids.isSome then
      (post.system_post_ids.getD []).foldl
        (fun acc systemPostId =>
          match selGetPost state systemPostId with
          | some systemPost =>
            let inner := deletePostActions fuel state systemPost
            (acc.1 ++ inner.1, acc.2 ++ inner.2)
          | none => acc)
        ([], [])
    else ([PAction.postDeleted post], [post.id])

/-- `deletePost(post)` as a whole: dispatches, remote delete calls, and
the `{data: true}` result it returns on every path. -/
def deletePost (fuel : Nat) (state : GlobalState) (post : Post) :
    List PAction × List String × Option PResult :=
  let acts := deletePostActions fuel state post
  (acts.1, acts.2, some .dataTrue)

/-- The three `server_error_id` values for which `createPost`'s rollback
removes the optimistic record instead of marking it failed. -/
def createPostRemovalReasons : List String :=
  ["api.post.create_post.root_id.app_error",
   "api.post.create_post.town_square_read_only",
   "plugin.message_will_be_posted.dismiss_post"]

/-- The rollback handler of `createPost`'s offline effect: rebuild the
optimistic record at the pending id with `failed = true` and a fresh
update timestamp (`rollbackNow` is `Date.now()` inside the handler),
dispatch the create-failure marker, then either remove the record (for
the three known rejection reasons) or re-dispatch it marked failed. -/
def createPostRollback (fuel : Nat) (state : GlobalState) (newPost : Post)
    (pendingPostId : String) (rollbackNow : Nat) (error : SrvError) :
    List PAction :=
  let data : Post :=
    { newPost with id := pendingPostId, failed := true, update_at := rollbackNow }
  PAction.createPostFailure error ::
    (if createPostRemovalReasons.contains error.server_error_id then
      removePostActions fuel state data
    else
      [PAction.receivedPost data])

/- ## `getPost`, reactions, `getPostsAround`, `lastPostActions` -/

/-- `getPost(postId)`, parameterized by the remote call's outcome: on
failure dispatch the failure marker and the error log and resolve
`{error}`; on success dispatch the post receipt and the success marker
and resolve `{data: post}` (the nested prefetcher dispatches are modelled
separately by `getProfilesAndStatusesForPosts`). -/
def getPost (clientResult : Except SrvError Post) :
    List PAction × Option PResult :=
  match clientResult with
  | .error e => ([PAction.getPostsFailure e, PAction.logError e], some (.error e))
  | .ok post =>
    ([PAction.receivedPost post, PAction.getPostsSuccess], some (.dataPost post))

/-- `addReaction(postId, emojiName)`, parameterized by the remote call's
outcome: log and resolve `{error}` on failure, dispatch the reaction
receipt and resolve `{data: true}` on success. -/
def addReaction (clientResult : Except SrvError Unit) :
    List PAction × Option PResult :=
  match clientResult with
  | .error e => ([PAction.logError e], some (.error e))
  | .ok _ => ([PAction.receivedReaction], some .dataTrue)

/-- `removeReaction(postId, emojiName)`, parameterized by the remote
call's outcome: log and resolve `{error}` on failure, dispatch the
reaction-deleted receipt for (current user, post, emoji) and resolve
`{data: true}` on success. -/
def removeReaction (currentUserId postId emojiName : String)
    (clientResult : Except SrvError Unit) : List PAction × Option PResult :=
  match clientResult with
  | .error e => ([PAction.logError e], some (.error e))
  | .ok _ =>
    ([PAction.reactionDeleted currentUserId postId emojiName], some .dataTrue)

/-- `getPostsAround(channelId, postId)`, parameterized by the outcomes of
its three concurrent sub-fetches (posts after, post thread, posts
before). If all three succeed, merge them: the posts maps are object-
spread (later spread wins), the newest-first order is the after-order,
then the pivot id, then the before-order, and the boundary markers come
from the after/before pages; dispatch the two receipts and resolve
`{data}`. If any fails, dispatch only the error log and resolve
`{error}` (which of several simultaneous failures `Promise.all` surfaces
is timing-dependent; the embedding picks the first in argument order —
the claims do not depend on the choice). -/
def getPostsAround (channelId postId : String)
    (afterRes threadRes beforeRes : Except SrvError CombinedPostList) :
    List PAction × Option PResult :=
  match afterRes, threadRes, beforeRes with
  | .ok aft, .ok thr, .ok bef =>
    let posts : CombinedPostList :=
      { posts := mergeMaps (mergeMaps aft.posts thr.posts) bef.posts
        order := aft.order ++ postId :: bef.order
        next_post_id := aft.next_post_id
        prev_post_id := bef.prev_post_id }
    ([PAction.receivedPosts posts,
      PAction.receivedPostsInChannel posts channelId (aft.next_post_id = "")
        (bef.prev_post_id = "")],
     some (.dataPosts posts))
  | .error e, _, _ => ([PAction.logError e], some (.error e))
  | _, .error e, _ => ([PAction.logError e], some (.error e))
  | _, _, .error e => ([PAction.logError e], some (.error e))

/-- `lastPostActions(post, websocketMessageProps)`: dispatch the new-post
receipt and the stop-typing signal; if the post matches the ignore
predicate, stop there. Otherwise mark read locally (no server notify)
when the author is the current user and the post is neither a system
message nor from a webhook; else mark read with server notify when the
post is in the currently focused channel; else mark the channel unread
with the event's team id and mention metadata. The three predicates are
the imported `shouldIgnorePost` / `isSystemMessage` / `isFromWebhook`
helpers, taken as parameters. -/
def lastPostActions (ignorePred systemPred webhookPred : Post → Bool)
    (state : GlobalState) (now : Nat) (post : Post) (teamId : String)
    (mentions : List String) : List PAction :=
  let base :=
    [PAction.receivedNewPost post,
     PAction.stopTyping (post.channel_id ++ post.root_id) post.user_id now]
  if ignorePred post then base
  else if post.user_id = state.currentUserId && !systemPred post &&
      !webhookPred post then
    base ++
      [PAction.markChannelAsRead post.channel_id false,
       PAction.markChannelAsViewed post.channel_id]
  else if post.channel_id = state.currentChannelId then
    base ++
      [PAction.markChannelAsRead post.channel_id true,
       PAction.markChannelAsViewed post.channel_id]
  else
    base ++ [PAction.markChannelAsUnread teamId post.channel_id mentions]

/- ## Sample data for concrete witnesses -/

/-- A minimal post used as the base of concrete witnesses; a draft with
no id and no pending id. -/
def basePost : Post :=
  { id := ""
    pending_post_id := none
    channel_id := "ch1"
    user_id := "u1"
    root_id := ""
    message := ""
    type := ""
    system_post_ids := none
    file_ids := none
    create_at := 0
    update_at := 0
    failed := false
    metadata := false
    props_attachments := [] }

/-- A minimal client state used as the base of concrete witnesses. -/
def baseState : GlobalState :=
  { currentUserId := "u1"
    currentChannelId := "ch1"
    sendingPostIds := []
    storePosts := []
    profiles := []
    statuses := []
    usersByUsername := []
    enableCustomEmoji := "true"
    systemEmojis := []
    customEmojisByName := []
    nonExistentEmoji := [] }

/- ## Store lemmas -/

theorem mapGet_mapErase_self (m : List (String × Post)) (k : String) :
    mapGet (mapErase m k) k = none := by
  unfold mapGet mapErase
  induction m with
  | nil => rfl
  | cons e rest ih =>
    by_cases h : e.1 = k
    · simp [h]
    · simp [List.filter_cons, h, List.find?]

theorem mapGet_mapSet_self (m : List (String × Post)) (k : String) (v : Post) :
    mapGet (mapSet m k v) k = some v := by
  unfold mapSet
  unfold mapGet at *
  rw [List.find?_append]
  have herase := mapGet_mapErase_self m k
  unfold mapGet at herase
  have : List.find? (fun e => e.1 = k) (mapErase m k) = none := by
    cases hf : List.find? (fun e => e.1 = k) (mapErase m k) with
    | none => rfl
    | some x => rw [hf] at herase; simp at herase
  rw [this]
  simp [List.find?]

/- ## Claim theorems -/

/-- C1: for every draft post, `createPost` computes the pending identifier
as the supplied `pending_post_id` when one is present and otherwise as
the (current user id, current timestamp) pair; and when the pending-send
record already marks that pending identifier as sending, it returns the
success result `{data: true}` immediately, dispatching nothing (so no
second optimistic update) and queuing no network call. -/
theorem createPost_pending_id_and_inflight_dedup (state : GlobalState)
    (now : Nat) (post : Post) (files : List String) :
    (createPost state now post files).pendingPostId = pendingIdOf state now post ∧
    (isPostIdSending state (pendingIdOf state now post) = true →
      createPost state now post files =
        { pendingPostId := pendingIdOf state now post
          dispatched := []
          networkCallQueued := false
          result := some .dataTrue }) := by
  constructor
  · simp only [createPost, pendingIdOf]
    split <;> rfl
  · intro h
    simp only [pendingIdOf] at h
    simp only [createPost, pendingIdOf]
    rw [if_pos h]

/-- A state whose pending-send record marks `"u1:5"` — the pending id a
`u1` draft sent at timestamp 5 generates — as already sending. -/
def stateSending : GlobalState := { baseState with sendingPostIds := ["u1:5"] }

/-- Witness for C1 at a concrete input: with the generated pending id
`"u1:5"` already outstanding, `createPost` returns `{data: true}` with no
dispatch and no queued network call. -/
theorem createPost_pending_id_and_inflight_dedup_witness :
    isPostIdSending stateSending (pendingIdOf stateSending 5 basePost) = true ∧
    createPost stateSending 5 basePost [] =
      { pendingPostId := pendingIdOf stateSending 5 basePost
        dispatched := []
        networkCallQueued := false
        result := some .dataTrue } :=
  ⟨by decide,
    (createPost_pending_id_and_inflight_dedup stateSending 5 basePost []).2
      (by decide)⟩

/-- C2: applying the dispatches of `createPost`'s rollback handler to the
post store: when the failure's `server_error_id` is one of the three
known rejection reasons, the optimistic record at the pending identifier
is absent afterward; for every other reason it is present with
`failed = true` and the refreshed update timestamp. (`newPost` is the
stamped draft the rollback closure captured; a draft is not a combined
system-activity record.) -/
theorem createPost_rollback_classification (fuel : Nat) (state : GlobalState)
    (newPost : Post) (pendingPostId : String) (rollbackNow : Nat)
    (error : SrvError) (store : List (String × Post))
    (hdraft : newPost.type ≠ COMBINED_USER_ACTIVITY) :
    (createPostRemovalReasons.contains error.server_error_id = true →
      mapGet (applyPActions store
        (createPostRollback (fuel + 1) state newPost pendingPostId rollbackNow
          error)) pendingPostId = none) ∧
    (createPostRemovalReasons.contains error.server_error_id = false →
      ∃ p, mapGet (applyPActions store
        (createPostRollback (fuel + 1) state newPost pendingPostId rollbackNow
          error)) pendingPostId = some p ∧
        p.failed = true ∧ p.update_at = rollbackNow) := by
  constructor
  · intro h
    simp only [createPostRollback, h, if_true, removePostActions]
    rw [if_neg (by simp [hdraft])]
    simp only [applyPActions, List.foldl, applyPAction]
    exact mapGet_mapErase_self store pendingPostId
  · intro h
    have hmain : mapGet (applyPActions store
        (createPostRollback (fuel + 1) state newPost pendingPostId rollbackNow
          error)) pendingPostId =
        some { newPost with
               id := pendingPostId, failed := true, update_at := rollbackNow } := by
      simp only [createPostRollback, h, if_false, Bool.false_eq_true,
        applyPActions, List.foldl, applyPAction]
      exact mapGet_mapSet_self store pendingPostId _
    exact ⟨_, hmain, rfl, rfl⟩

/-- The stamped draft `createPost` built at timestamp 5 for `basePost`. -/
def stampedDraft : Post :=
  { basePost with pending_post_id := some "u1:5", create_at := 5, update_at := 5 }

/-- The store as it stands after `createPost`'s optimistic dispatch: the
stamped draft sits at its pending id `"u1:5"`. -/
def storeOptimistic : List (String × Post) :=
  [("u1:5", { stampedDraft with id := "u1:5" })]

/-- Witness for C2 at concrete inputs: after a root-deleted rejection the
optimistic record at `"u1:5"` is gone; after an unrelated failure it is
present, marked failed, with the rollback-time update timestamp. -/
theorem createPost_rollback_classification_witness :
    basePost.type ≠ COMBINED_USER_ACTIVITY ∧
    createPostRemovalReasons.contains "api.post.create_post.root_id.app_error" = true ∧
    createPostRemovalReasons.contains "some.other.reason" = false ∧
    mapGet (applyPActions storeOptimistic
      (createPostRollback 1 baseState stampedDraft
        "u1:5" 9 ⟨"api.post.create_post.root_id.app_error"⟩)) "u1:5" = none ∧
    ∃ p, mapGet (applyPActions storeOptimistic
      (createPostRollback 1 baseState stampedDraft
        "u1:5" 9 ⟨"some.other.reason"⟩)) "u1:5" = some p ∧
      p.failed = true ∧ p.update_at = 9 :=
  ⟨by decide, by decide, by decide,
    (createPost_rollback_classification 0 baseState stampedDraft
      "u1:5" 9 ⟨"api.post.create_post.root_id.app_error"⟩ storeOptimistic
      (by decide)).1 (by decide),
    (createPost_rollback_classification 0 baseState stampedDraft
      "u1:5" 9 ⟨"some.other.reason"⟩ storeOptimistic
      (by decide)).2 (by decide)⟩

/-- A post batch with the given newest-first order, an empty post map and
empty boundary markers, used for concrete instances. -/
def pageWith (order : List String) : CombinedPostList :=
  { posts := [], order := order, next_post_id := "", prev_post_id := "" }

/-- C3: when its three sub-fetches succeed, `getPostsAround` produces an
ordered id sequence equal to the after-page's order, then the pivot id,
then the before-page's order; with after-page ids [5,4], before-page ids
[2,1] and pivot id 3 the order is [5,4,3,2,1]. -/
theorem getPostsAround_merge_order (channelId postId : String)
    (aft thr bef : CombinedPostList) :
    (∃ merged : CombinedPostList,
      (getPostsAround channelId postId (.ok aft) (.ok thr) (.ok bef)).2 =
        some (.dataPosts merged) ∧
      merged.order = aft.order ++ postId :: bef.order) ∧
    (∃ merged : CombinedPostList,
      (getPostsAround "ch1" "3" (.ok (pageWith ["5", "4"])) (.ok (pageWith []))
        (.ok (pageWith ["2", "1"]))).2 = some (.dataPosts merged) ∧
      merged.order = ["5", "4", "3", "2", "1"]) :=
  ⟨⟨_, rfl, rfl⟩, ⟨_, rfl, rfl⟩⟩

/-- C5: if any one of `getPostsAround`'s three sub-fetches fails, the
whole operation resolves `{error}` and dispatches nothing but the error
log — in particular no receipt action, so no partial merge reaches the
store. -/
theorem getPostsAround_all_or_nothing (channelId postId : String)
    (afterRes threadRes beforeRes : Except SrvError CombinedPostList)
    (hfail : (∃ e, afterRes = .error e) ∨ (∃ e, threadRes = .error e) ∨
      (∃ e, beforeRes = .error e)) :
    (∃ e, getPostsAround channelId postId afterRes threadRes beforeRes =
      ([PAction.logError e], some (.error e))) ∧
    ∀ act ∈ (getPostsAround channelId postId afterRes threadRes beforeRes).1,
      act.isReceipt = false := by
  cases afterRes with
  | error e =>
    cases threadRes <;> cases beforeRes <;>
      exact ⟨⟨e, rfl⟩, by
        intro act hact
        simp only [getPostsAround, List.mem_singleton] at hact
        subst hact; rfl⟩
  | ok aft =>
    cases threadRes with
    | error e =>
      cases beforeRes <;>
        exact ⟨⟨e, rfl⟩, by
          intro act hact
          simp only [getPostsAround, List.mem_singleton] at hact
          subst hact; rfl⟩
    | ok thr =>
      cases beforeRes with
      | error e =>
        exact ⟨⟨e, rfl⟩, by
          intro act hact
          simp only [getPostsAround, List.mem_singleton] at hact
          subst hact; rfl⟩
      | ok bef =>
        exfalso
        rcases hfail with ⟨e, h⟩ | ⟨e, h⟩ | ⟨e, h⟩ <;> simp at h

/-- Witness for C5 at a concrete input: the after-fetch fails, the whole
compound fails with only the error log dispatched. -/
theorem getPostsAround_all_or_nothing_witness :
    ((∃ e, (Except.error ⟨"boom"⟩ : Except SrvError CombinedPostList) = .error e) ∨
      (∃ e, (Except.ok (pageWith []) : Except SrvError CombinedPostList) = .error e) ∨
      (∃ e, (Except.ok (pageWith []) : Except SrvError CombinedPostList) = .error e)) ∧
    (∃ e, getPostsAround "ch1" "3" (.error ⟨"boom"⟩) (.ok (pageWith []))
      (.ok (pageWith [])) = ([PAction.logError e], some (.error e))) ∧
    ∀ act ∈ (getPostsAround "ch1" "3" (.error (⟨"boom"⟩ : SrvError))
      (.ok (pageWith [])) (.ok (pageWith []))).1, act.isReceipt = false :=
  ⟨Or.inl ⟨⟨"boom"⟩, rfl⟩,
    getPostsAround_all_or_nothing "ch1" "3" (.error ⟨"boom"⟩) (.ok (pageWith []))
      (.ok (pageWith [])) (Or.inl ⟨⟨"boom"⟩, rfl⟩)⟩

/-- The post ids removed by the `POST_REMOVED` dispatches of an action
list. -/
def removedPostIds (acts : List PAction) : List String :=
  acts.filterMap (fun act => match act with
    | .postRemoved p => some p.id
    | _ => none)

/-- C4: for a combined system-activity post with member ids [a, b, c]
each resolving in the store to a (non-combined) post of that id,
`deletePost` issues exactly the three underlying remote deletes for a, b,
c and none for the combined record's own id; `removePost` fans out the
same way, removing exactly a, b, c and never the combined id. -/
theorem combined_post_fanout_members_only (fuel : Nat) (state : GlobalState)
    (combined pa pb pc : Post) (a b c : String)
    (htype : combined.type = COMBINED_USER_ACTIVITY)
    (hmem : combined.system_post_ids = some [a, b, c])
    (ha : selGetPost state a = some pa) (haid : pa.id = a)
    (hat : pa.type ≠ COMBINED_USER_ACTIVITY)
    (hb : selGetPost state b = some pb) (hbid : pb.id = b)
    (hbt : pb.type ≠ COMBINED_USER_ACTIVITY)
    (hc : selGetPost state c = some pc) (hcid : pc.id = c)
    (hct : pc.type ≠ COMBINED_USER_ACTIVITY)
    (hself : combined.id ∉ [a, b, c]) :
    (deletePostActions (fuel + 2) state combined).2 = [a, b, c] ∧
    combined.id ∉ (deletePostActions (fuel + 2) state combined).2 ∧
    removedPostIds (removePostActions (fuel + 2) state combined) = [a, b, c] ∧
    combined.id ∉ removedPostIds (removePostActions (fuel + 2) state combined) := by
  have hdel : (deletePostActions (fuel + 2) state combined).2 = [a, b, c] := by
    simp [deletePostActions, htype, hmem, ha, hb, hc, hat, hbt, hct,
      haid, hbid, hcid, List.foldl]
  have hrem : removedPostIds (removePostActions (fuel + 2) state combined) =
      [a, b, c] := by
    simp [removePostActions, removedPostIds, htype, hmem, ha, hb, hc,
      hat, hbt, hct, haid, hbid, hcid, List.foldl, List.filterMap]
  refine ⟨hdel, ?_, hrem, ?_⟩
  · rw [hdel]; exact hself
  · rw [hrem]; exact hself

/-- A plain system post of the given id, member of a combined record. -/
def memberPost (i : String) : Post :=
  { basePost with id := i, type := "system_join_leave" }

/-- A combined system-activity post with members a, b, c. -/
def combinedSample : Post :=
  { basePost with
    id := "comb"
    type := COMBINED_USER_ACTIVITY
    system_post_ids := some ["a", "b", "c"] }

/-- A state whose store holds the three members of `combinedSample`. -/
def stateFanout : GlobalState :=
  { baseState with storePosts :=
      [("a", memberPost "a"), ("b", memberPost "b"), ("c", memberPost "c")] }

/-- Witness for C4 at concrete inputs: deleting/removing the concrete
combined post touches exactly its three members and never itself. -/
theorem combined_post_fanout_members_only_witness :
    combinedSample.type = COMBINED_USER_ACTIVITY ∧
    combinedSample.system_post_ids = some ["a", "b", "c"] ∧
    selGetPost stateFanout "a" = some (memberPost "a") ∧
    selGetPost stateFanout "b" = some (memberPost "b") ∧
    selGetPost stateFanout "c" = some (memberPost "c") ∧
    combinedSample.id ∉ ["a", "b", "c"] ∧
    (deletePostActions 2 stateFanout combinedSample).2 = ["a", "b", "c"] ∧
    combinedSample.id ∉ (deletePostActions 2 stateFanout combinedSample).2 ∧
    removedPostIds (removePostActions 2 stateFanout combinedSample) =
      ["a", "b", "c"] ∧
    combinedSample.id ∉
      removedPostIds (removePostActions 2 stateFanout combinedSample) :=
  ⟨by decide, by decide, by decide, by decide, by decide, by decide,
    combined_post_fanout_members_only 0 stateFanout combinedSample
      (memberPost "a") (memberPost "b") (memberPost "c") "a" "b" "c"
      (by decide) (by decide) (by decide) (by decide) (by decide) (by decide)
      (by decide) (by decide) (by decide) (by decide) (by decide) (by decide)⟩

/-- C6: `lastPostActions`' read/unread policy for an inbound new-post
event. A post matching the ignore predicate short-circuits after the
receipt and stop-typing dispatches; an own-authored post that is neither
a system message nor from a webhook marks the channel read locally
(no server notification) — regardless of the focused channel; otherwise
a post in the currently focused channel marks it read with server
notification; any other post marks the channel unread with the event's
team id and mention metadata. -/
theorem lastPostActions_read_unread_policy
    (ignorePred systemPred webhookPred : Post → Bool) (state : GlobalState)
    (now : Nat) (post : Post) (teamId : String) (mentions : List String) :
    (ignorePred post = true →
      lastPostActions ignorePred systemPred webhookPred state now post teamId
        mentions =
      [PAction.receivedNewPost post,
       PAction.stopTyping (post.channel_id ++ post.root_id) post.user_id now]) ∧
    (ignorePred post = false →
      post.user_id = state.currentUserId → systemPred post = false →
      webhookPred post = false →
      lastPostActions ignorePred systemPred webhookPred state now post teamId
        mentions =
      [PAction.receivedNewPost post,
       PAction.stopTyping (post.channel_id ++ post.root_id) post.user_id now,
       PAction.markChannelAsRead post.channel_id false,
       PAction.markChannelAsViewed post.channel_id]) ∧
    (ignorePred post = false →
      (post.user_id = state.currentUserId && !systemPred post &&
        !webhookPred post) = false →
      post.channel_id = state.currentChannelId →
      lastPostActions ignorePred systemPred webhookPred state now post teamId
        mentions =
      [PAction.receivedNewPost post,
       PAction.stopTyping (post.channel_id ++ post.root_id) post.user_id now,
       PAction.markChannelAsRead post.channel_id true,
       PAction.markChannelAsViewed post.channel_id]) ∧
    (ignorePred post = false →
      (post.user_id = state.currentUserId && !systemPred post &&
        !webhookPred post) = false →
      post.channel_id ≠ state.currentChannelId →
      lastPostActions ignorePred systemPred webhookPred state now post teamId
        mentions =
      [PAction.receivedNewPost post,
       PAction.stopTyping (post.channel_id ++ post.root_id) post.user_id now,
       PAction.markChannelAsUnread teamId post.channel_id mentions]) := by
  refine ⟨?_, ?_, ?_, ?_⟩
  · intro hig
    simp [lastPostActions, hig]
  · intro hig huser hsys hweb
    simp [lastPostActions, hig, huser, hsys, hweb]
  · intro hig hown hch
    simp only [lastPostActions, hig, Bool.false_eq_true, if_false, hown, hch,
      if_true]
    simp [hch]
  · intro hig hown hch
    simp only [lastPostActions, hig, Bool.false_eq_true, if_false, hown]
    simp [hch]

/-- A state focused on a different channel than `basePost`'s, to witness
that own-authored posts are treated as read even when unfocused. -/
def stateElsewhere : GlobalState := { baseState with currentChannelId := "ch2" }

/-- Witness for C6 at a concrete input: an own-authored, non-system,
non-webhook post in a non-focused channel is marked read locally without
server notification. -/
theorem lastPostActions_read_unread_policy_witness :
    (fun _ : Post => false) basePost = false ∧
    basePost.user_id = stateElsewhere.currentUserId ∧
    basePost.channel_id ≠ stateElsewhere.currentChannelId ∧
    lastPostActions (fun _ => false) (fun _ => false) (fun _ => false)
      stateElsewhere 4 basePost "t1" [] =
    [PAction.receivedNewPost basePost,
     PAction.stopTyping (basePost.channel_id ++ basePost.root_id)
       basePost.user_id 4,
     PAction.markChannelAsRead basePost.channel_id false,
     PAction.markChannelAsViewed basePost.channel_id] :=
  ⟨rfl, rfl, by decide,
    (lastPostActions_read_unread_policy (fun _ => false) (fun _ => false)
      (fun _ => false) stateElsewhere 4 basePost "t1" []).2.1
      rfl rfl rfl rfl⟩

/-- A metadata-free post whose message mentions no emoji. -/
def postNoMeta : Post := { basePost with message := "x" }

/-- A post that carries server-resolved metadata and references a custom
emoji in its message. -/
def postWithMeta : Post := { basePost with message := ":wave:", metadata := true }

/-- Counterexample to C7 as stated: in the batch
`[postNoMeta, postWithMeta]` (custom emoji enabled, empty caches) the
second post carries resolved emoji metadata, yet its message contributes
`"wave"` to the demand set — the code consults only the first post's
metadata, not each post's own. -/
theorem getNeededCustomEmojis_per_post_claim_false :
    postWithMeta.metadata = true ∧
    getNeededCustomEmojis baseState [postNoMeta, postWithMeta] = some ["wave"] :=
  ⟨rfl, by decide⟩

/-- C7 (amended): the demand set is empty when custom emoji are
administratively disabled; the resolved-metadata check inspects only the
batch's first post — if the first post carries metadata the entire batch
is skipped, and if it does not, every post is scanned and a later post's
metadata never affects the demand set (here: flipping later posts'
metadata arbitrarily leaves the result unchanged). -/
theorem getNeededCustomEmojis_first_post_gate (state : GlobalState)
    (posts : List Post) (p0 : Post) (rest : List Post)
    (metaFlip : Post → Bool) :
    (state.enableCustomEmoji ≠ "true" →
      getNeededCustomEmojis state posts = some []) ∧
    (state.enableCustomEmoji = "true" → p0.metadata = true →
      getNeededCustomEmojis state (p0 :: rest) = some []) ∧
    (p0.metadata = false →
      getNeededCustomEmojis state (p0 :: rest) =
        getNeededCustomEmojis state
          (p0 :: rest.map (fun p => { p with metadata := metaFlip p }))) := by
  refine ⟨?_, ?_, ?_⟩
  · intro hdis
    unfold getNeededCustomEmojis
    rw [if_pos hdis]
  · intro hen hmeta
    simp [getNeededCustomEmojis, hen, hmeta]
  · intro hmeta
    unfold getNeededCustomEmojis
    by_cases hdis : state.enableCustomEmoji ≠ "true"
    · rw [if_pos hdis, if_pos hdis]
    · rw [if_neg hdis, if_neg hdis]
      simp only [hmeta, Bool.false_eq_true, if_false]
      have hfold : ∀ l : List Post,
          (l.map (fun p => { p with metadata := metaFlip p })).foldr
            (fun post acc => postEmojiDemand state post ++ acc) [] =
          l.foldr (fun post acc => postEmojiDemand state post ++ acc) [] := by
        intro l
        induction l with
        | nil => rfl
        | cons p t ih =>
          simp only [List.map_cons, List.foldr_cons]
          exact congrArg (fun acc => postEmojiDemand state p ++ acc) ih
      simp only [List.foldr_cons, hfold]

/-- A metadata-free post referencing a custom emoji. -/
def postColon : Post := { basePost with message := ":smile: hello" }

/-- Witness for C7 (amended) at a concrete input: with a metadata-free
first post, setting the second post's metadata flag does not change the
demand set. -/
theorem getNeededCustomEmojis_first_post_gate_witness :
    postNoMeta.metadata = false ∧
    getNeededCustomEmojis baseState [postNoMeta, postColon] =
      getNeededCustomEmojis baseState
        (postNoMeta :: [postColon].map (fun p => { p with metadata := true })) :=
  ⟨rfl,
    (getNeededCustomEmojis_first_post_gate baseState [postNoMeta, postColon]
      postNoMeta [postColon] (fun _ => true)).2.2 rfl⟩

/-- A match of the mention pattern only arises at an `@` character, so a
message with a match contains `@`. -/
theorem scanMentionsAux_imp_at (fuel : Nat) :
    ∀ (prev : Bool) (l : List Char) (m : String × String),
      m ∈ scanMentionsAux fuel prev l → '@' ∈ l := by
  induction fuel with
  | zero => intro prev l m hm; simp [scanMentionsAux] at hm
  | succ f ih =>
    intro prev l m hm
    match l with
    | [] => simp [scanMentionsAux] at hm
    | c :: rest =>
      rw [scanMentionsAux] at hm
      by_cases hc : (c = '@' && !prev) = true
      · have hceq : c = '@' := by
          simp only [Bool.and_eq_true, decide_eq_true_eq] at hc
          exact hc.1
        subst hceq
        exact List.mem_cons_self '@' rest
      · rw [if_neg hc] at hm
        exact List.mem_cons_of_mem c (ih (isWordChar c) rest m hm)

/-- A message with a mention match passes the `includes('@')` fast path. -/
theorem mem_scanMentions_contains_at (msg : String) (m : String × String)
    (hm : m ∈ scanMentions msg) : strContainsChar msg '@' = true := by
  have := scanMentionsAux_imp_at (msg.length + 1) false msg.toList m hm
  simp only [strContainsChar]
  exact List.elem_eq_true_of_mem this

/-- A match that is neither reserved nor cached puts both of its forms
into the fold `mentionCandidates` computes. -/
theorem mem_mentionFold (cached : List String) (m1 m2 : String)
    (L : List (String × String)) (hmem : (m1, m2) ∈ L)
    (hres : SPECIAL_MENTIONS.contains m2 = false)
    (hc1 : cached.contains m1 = false) (hc2 : cached.contains m2 = false) :
    m1 ∈ L.foldr (fun m acc =>
      if SPECIAL_MENTIONS.contains m.2 then acc
      else if cached.contains m.1 || cached.contains m.2 then acc
      else m.1 :: m.2 :: acc) [] ∧
    m2 ∈ L.foldr (fun m acc =>
      if SPECIAL_MENTIONS.contains m.2 then acc
      else if cached.contains m.1 || cached.contains m.2 then acc
      else m.1 :: m.2 :: acc) [] := by
  induction L with
  | nil => cases hmem
  | cons m t ih =>
    rcases List.mem_cons.mp hmem with heq | htail
    · have hm : m = (m1, m2) := heq.symm
      subst hm
      simp only [List.foldr_cons, hres, Bool.false_eq_true, if_false, hc1, hc2,
        Bool.or_self]
      exact ⟨List.mem_cons_self _ _,
        List.mem_cons_of_mem _ (List.mem_cons_self _ _)⟩
    · have hacc := ih htail
      simp only [List.foldr_cons]
      constructor
      · split
        · exact hacc.1
        · split
          · exact hacc.1
          · exact List.mem_cons_of_mem _ (List.mem_cons_of_mem _ hacc.1)
      · split
        · exact hacc.2
        · split
          · exact hacc.2
          · exact List.mem_cons_of_mem _ (List.mem_cons_of_mem _ hacc.2)

/-- A match that is neither reserved nor cached contributes both of its
forms to a post's mention candidates. -/
theorem mem_mentionCandidates (cached : List String) (msg : String)
    (m1 m2 : String) (hmem : (m1, m2) ∈ scanMentions msg)
    (hres : SPECIAL_MENTIONS.contains m2 = false)
    (hc1 : cached.contains m1 = false) (hc2 : cached.contains m2 = false) :
    m1 ∈ mentionCandidates cached msg ∧ m2 ∈ mentionCandidates cached msg := by
  unfold mentionCandidates
  exact mem_mentionFold cached m1 m2 (scanMentions msg) hmem hres hc1 hc2

/-- A candidate contributed by one of the batch's posts is in the batch's
demand set. -/
theorem mem_getNeededAtMentionedUsernames (state : GlobalState)
    (posts : List Post) (post : Post) (hpost : post ∈ posts) (x : String)
    (hx : x ∈ mentionCandidates state.usersByUsername post.message)
    (hat : strContainsChar post.message '@' = true) :
    x ∈ getNeededAtMentionedUsernames state posts := by
  unfold getNeededAtMentionedUsernames
  induction posts with
  | nil => cases hpost
  | cons p t ih =>
    rcases List.mem_cons.mp hpost with heq | htail
    · subst heq
      simp only [List.foldr_cons, hat, if_true]
      exact List.mem_append_left _ hx
    · have hacc := ih htail
      simp only [List.foldr_cons]
      split
      · exact List.mem_append_right _ hacc
      · exact hacc

/-- The post carrying the spec's concrete mention-scan message. -/
def mentionPost : Post := { basePost with message := "hi @bob.smith, cc @all" }

/-- C8: any mention-pattern match of a post in the batch whose trimmed
form is not reserved and neither of whose forms resolves to a cached
profile contributes both forms to the demand set; and over
"hi @bob.smith, cc @all" the pattern matches exactly @bob.smith (whose
punctuation-preserving and trimmed forms coincide) and @all, "@all" is
reserved, and the demand set contains "bob.smith" and excludes "all". -/
theorem mention_scan_demand_set (state : GlobalState) (posts : List Post)
    (post : Post) (m1 m2 : String) (hpost : post ∈ posts)
    (hmem : (m1, m2) ∈ scanMentions post.message)
    (hres : SPECIAL_MENTIONS.contains m2 = false)
    (hc1 : state.usersByUsername.contains m1 = false)
    (hc2 : state.usersByUsername.contains m2 = false) :
    (m1 ∈ getNeededAtMentionedUsernames state posts ∧
     m2 ∈ getNeededAtMentionedUsernames state posts) ∧
    (scanMentions "hi @bob.smith, cc @all" =
      [("bob.smith", "bob.smith"), ("all", "all")] ∧
     SPECIAL_MENTIONS.contains "all" = true ∧
     "bob.smith" ∈ getNeededAtMentionedUsernames baseState [mentionPost] ∧
     "all" ∉ getNeededAtMentionedUsernames baseState [mentionPost]) := by
  have hat := mem_scanMentions_contains_at post.message (m1, m2) hmem
  have hcand := mem_mentionCandidates state.usersByUsername post.message m1 m2
    hmem hres hc1 hc2
  refine ⟨⟨?_, ?_⟩, by decide, by decide, by decide, by decide⟩
  · exact mem_getNeededAtMentionedUsernames state posts post hpost m1 hcand.1 hat
  · exact mem_getNeededAtMentionedUsernames state posts post hpost m2 hcand.2 hat

/-- Witness for C8 at a concrete input: the uncached, unreserved match
@bob.smith of the spec's example message lands in the demand set. -/
theorem mention_scan_demand_set_witness :
    ("bob.smith", "bob.smith") ∈ scanMentions mentionPost.message ∧
    SPECIAL_MENTIONS.contains "bob.smith" = false ∧
    baseState.usersByUsername.contains "bob.smith" = false ∧
    ("bob.smith" ∈ getNeededAtMentionedUsernames baseState [mentionPost] ∧
     "bob.smith" ∈ getNeededAtMentionedUsernames baseState [mentionPost]) :=
  ⟨by decide, by decide, by decide,
    (mention_scan_demand_set baseState [mentionPost] mentionPost
      "bob.smith" "bob.smith" (List.mem_cons_self _ _) (by decide) (by decide)
      (by decide) (by decide)).1⟩

/-- Counterexample to C9 as stated: `removePost`'s thunk has no `return`
statement, so at a concrete input it resolves with `undefined` (`none`)
rather than a `{data}` or `{error}` result object. -/
theorem removePost_returns_undefined :
    (removePost 1 baseState basePost).2 = none := rfl

/-- C9 (amended): `getPost`, `addReaction`, `removeReaction`,
`deletePost` and `getPostsAround` resolve with a uniform `{data}` or
`{error}` result on every path (remote failures are caught and returned,
never rethrown); `removePost`, however, resolves with `undefined` — it
dispatches its removals but returns no result object. -/
theorem post_ops_uniform_result (fuel : Nat) (state : GlobalState)
    (post p : Post) (e : SrvError) (uid pid emoji cid ppid : String)
    (r1 r2 r3 : Except SrvError CombinedPostList) :
    (getPost (.ok p)).2 = some (.dataPost p) ∧
    (getPost (.error e)).2 = some (.error e) ∧
    (addReaction (.ok ())).2 = some .dataTrue ∧
    (addReaction (.error e)).2 = some (.error e) ∧
    (removeReaction uid pid emoji (.ok ())).2 = some .dataTrue ∧
    (removeReaction uid pid emoji (.error e)).2 = some (.error e) ∧
    (deletePost fuel state post).2.2 = some .dataTrue ∧
    ((getPostsAround cid ppid r1 r2 r3).2).isSome = true ∧
    (removePost fuel state post).2 = none := by
  refine ⟨rfl, rfl, rfl, rfl, rfl, rfl, rfl, ?_, rfl⟩
  cases r1 <;> cases r2 <;> cases r3 <;> rfl

/-- C10: the dependency prefetcher resolves immediately with no fetch on
a null/undefined batch and on an empty batch, and it never reaches the
emoji scan's `posts[0]` access on an empty batch — its result is defined
(`isSome`) on every input, even though the emoji scan itself would throw
(`none`) on an empty batch when custom emoji are enabled. -/
theorem prefetcher_guards_empty_batch (state : GlobalState)
    (input : Option (List Post)) :
    getProfilesAndStatusesForPosts state none = some [] ∧
    getProfilesAndStatusesForPosts state (some []) = some [] ∧
    (getProfilesAndStatusesForPosts state input).isSome = true ∧
    (state.enableCustomEmoji = "true" →
      getNeededCustomEmojis state [] = none) := by
  refine ⟨rfl, rfl, ?_, ?_⟩
  · cases input with
    | none => rfl
    | some posts =>
      cases posts with
      | nil => rfl
      | cons p rest =>
        unfold getProfilesAndStatusesForPosts
        dsimp only
        rw [if_neg (by simp)]
        have h : ∃ l, getNeededCustomEmojis state (p :: rest) = some l := by
          unfold getNeededCustomEmojis
          by_cases hd : state.enableCustomEmoji ≠ "true"
          · rw [if_pos hd]; exact ⟨[], rfl⟩
          · rw [if_neg hd]
            by_cases hm : p.metadata <;> simp [hm]
        obtain ⟨l, hl⟩ := h
        simp only [hl, Option.isSome_some]
  · intro hen
    unfold getNeededCustomEmojis
    rw [if_neg (by simp [hen])]

/-- Witness for C10 at a concrete input: with custom emoji enabled, the
prefetcher resolves with no fetches on null and empty batches, while the
unguarded emoji scan on the empty batch would throw. -/
theorem prefetcher_guards_empty_batch_witness :
    baseState.enableCustomEmoji = "true" ∧
    getProfilesAndStatusesForPosts baseState none = some [] ∧
    getProfilesAndStatusesForPosts baseState (some []) = some [] ∧
    getNeededCustomEmojis baseState [] = none :=
  ⟨rfl, (prefetcher_guards_empty_batch baseState none).1,
    (prefetcher_guards_empty_batch baseState none).2.1,
    (prefetcher_guards_empty_batch baseState none).2.2.2 rfl⟩

end MMRedux
